import Mathlib

/-!
Shallow embedding of the TCP transport of pyrofork
(src/pyrogram/connection/transport/tcp/tcp.py) and of the API method
delete_forum_topic (src/pyrogram/methods/chats/delete_forum_topic.py).

The transport's blocking-prone awaits are modelled by explicit event
parameters carrying the duration the underlying operation would take and
the payload or error it would produce; `asyncio.wait_for(op, TIMEOUT)`
becomes a bound check on that duration.  Exceptions are values of `PyExc`
carried in `Except`.  Byte strings are lists of naturals.
-/

abbrev Bytes := List Nat

/-- TCP.TIMEOUT, the fixed timeout constant of the transport class. -/
def TIMEOUT : Nat := 10

/-- Exception classes that appear in the transport code: the scheduler's
generic timeout signal raised by asyncio.wait_for, the built-in
TimeoutError raised by the re-raise clause in connect, and the OSError
class covering socket-level failures (also raised by the send worker). -/
inductive PyExc where
  | asyncioTimeout
  | timeoutError
  | osError
deriving DecidableEq, Repr

/-! ### Construction and proxy selection (TCP.__init__, lines 33-76) -/

/-- Outcome of ipaddress.ip_address on the proxy hostname: an IPv4
literal, an IPv6 literal, or a ValueError for an unparsable hostname. -/
inductive ParseResult where
  | v4
  | v6
  | invalid
deriving DecidableEq, Repr

/-- Socket address families used by the constructor. -/
inductive AddrFamily where
  | afInet
  | afInet6
deriving DecidableEq, Repr

/-- Address-family selection performed by TCP.__init__: with a proxy, the
hostname is parsed as an IP literal and only a successful IPv6 literal
picks AF_INET6, a ValueError or an IPv4 literal picks AF_INET; without a
proxy the ipv6 flag picks the family directly. -/
def chooseSocketFamily (ipv6 : Bool) (proxyHostname : Option String)
    (parseIp : String → ParseResult) : AddrFamily :=
  match proxyHostname with
  | some hostname =>
      match parseIp hostname with
      | ParseResult.invalid => AddrFamily.afInet
      | ParseResult.v6 => AddrFamily.afInet6
      | ParseResult.v4 => AddrFamily.afInet
  | none => if ipv6 then AddrFamily.afInet6 else AddrFamily.afInet

/-! ### Connect, non-proxy path (TCP.connect, lines 83-87) -/

/-- What the scheduler's sock_connect would do, left to itself: succeed
after d time units, or fail with an OSError after d time units. -/
inductive ConnectEvent where
  | succeeds (d : Nat)
  | fails (d : Nat)
deriving DecidableEq, Repr

/-- asyncio.wait_for(loop.sock_connect(self.socket, address), TCP.TIMEOUT):
the inner operation's result if it finishes within the bound, and the
scheduler's generic timeout signal at the bound otherwise.  The second
component is the elapsed time. -/
def sockConnectBounded : ConnectEvent → Except PyExc Unit × Nat
  | ConnectEvent.succeeds d =>
      if d ≤ TIMEOUT then (Except.ok (), d)
      else (Except.error PyExc.asyncioTimeout, TIMEOUT)
  | ConnectEvent.fails d =>
      if d ≤ TIMEOUT then (Except.error PyExc.osError, d)
      else (Except.error PyExc.asyncioTimeout, TIMEOUT)

/-- The non-proxy branch of TCP.connect: the bounded sock_connect with its
except clause re-raising asyncio.TimeoutError as TimeoutError, every
other outcome passed through unchanged. -/
def connectNonProxy (ev : ConnectEvent) : Except PyExc Unit × Nat :=
  match sockConnectBounded ev with
  | (Except.error PyExc.asyncioTimeout, t) => (Except.error PyExc.timeoutError, t)
  | r => r

/-! ### Receive path (TCP.recv, lines 121-138) -/

/-- What one self.reader.read(length - len(data)) would do, left to
itself: deliver a chunk (possibly empty, meaning the remote closed) after
d time units, or raise an OSError after d time units. -/
inductive ReadEvent where
  | delivers (d : Nat) (chunk : Bytes)
  | raises (d : Nat)
deriving DecidableEq, Repr

/-- asyncio.wait_for(self.reader.read(...), TCP.TIMEOUT): the read's own
outcome within the bound, the scheduler's timeout signal at the bound
otherwise.  The second component is the elapsed time. -/
def readChunkBounded : ReadEvent → Except PyExc Bytes × Nat
  | ReadEvent.delivers d c =>
      if d ≤ TIMEOUT then (Except.ok c, d)
      else (Except.error PyExc.asyncioTimeout, TIMEOUT)
  | ReadEvent.raises d =>
      if d ≤ TIMEOUT then (Except.error PyExc.osError, d)
      else (Except.error PyExc.asyncioTimeout, TIMEOUT)

/-- The accumulation loop of TCP.recv: while len(data) < length, perform
one bounded chunk read; OSError and the timeout signal both yield None,
an empty chunk (remote closed) yields None, a non-empty chunk is appended
and the loop continues.  The event list is the sequence of chunk reads
the socket would answer; an exhausted list while bytes are still missing
stands for a read that never completes, which the bound turns into None. -/
def recvAux (length : Nat) (data : Bytes) : List ReadEvent → Option Bytes
  | [] => if data.length < length then none else some data
  | ev :: rest =>
      if data.length < length then
        match (readChunkBounded ev).1 with
        | Except.error _ => none
        | Except.ok chunk =>
            if chunk = [] then none
            else recvAux length (data ++ chunk) rest
      else some data

/-- TCP.recv(length): the loop started with an empty accumulator. -/
def recv (length : Nat) (events : List ReadEvent) : Option Bytes :=
  recvAux length [] events

/-- Number of chunk reads TCP.recv issues on the socket: same loop as
recvAux, counting each entered read. -/
def recvReadsAux (length : Nat) (data : Bytes) : List ReadEvent → Nat
  | [] => 0
  | ev :: rest =>
      if data.length < length then
        match (readChunkBounded ev).1 with
        | Except.error _ => 1
        | Except.ok chunk =>
            if chunk = [] then 1
            else 1 + recvReadsAux length (data ++ chunk) rest
      else 0

/-- Number of chunk reads issued by TCP.recv(length). -/
def recvReads (length : Nat) (events : List ReadEvent) : Nat :=
  recvReadsAux length [] events

/-- The OS guarantee that each read returns at most the number of bytes
requested, checked along the run: the first chunk is at most n bytes, the
next at most n minus that, and so on. -/
def fitsB : Nat → List Bytes → Bool
  | _, [] => true
  | n, c :: cs => decide (c.length ≤ n) && fitsB (n - c.length) cs

/-! ### Send path (TCP.send / TCP.send_worker, lines 104-119) -/

/-- What writer.write(data) followed by writer.drain() would do for one
queue entry: complete after d time units, or raise after d time units. -/
inductive FlushEvent where
  | succeeds (d : Nat)
  | fails (d : Nat)
deriving DecidableEq, Repr

/-- The write-plus-drain step of one send_worker iteration.  The source
awaits writer.drain() bare, with no asyncio.wait_for around it, so the
elapsed time is the drain's own duration whatever it is; a raise is
wrapped by the worker into OSError. -/
def workerWriteFlush : FlushEvent → Except PyExc Unit × Nat
  | FlushEvent.succeeds d => (Except.ok (), d)
  | FlushEvent.fails d => (Except.error PyExc.osError, d)

/-- One entry dequeued from send_queue: the None sentinel enqueued by
close, or a payload enqueued by send together with what its write-flush
would do. -/
inductive QEntry where
  | sentinel
  | item (data : Bytes) (ev : FlushEvent)
deriving DecidableEq, Repr

/-- How the send_worker task ends: still blocked on an empty queue,
stopped gracefully by the sentinel, or terminated by raising OSError. -/
inductive WorkerResult where
  | blocked
  | graceful
  | sendError
deriving DecidableEq, Repr

/-- The send_worker loop over the queue contents: dequeue one entry at a
time; None breaks the loop; a payload is written and flushed, a failure
there raises OSError out of the worker.  Returns how the worker ended and
the payloads written to the socket, in order. -/
def sendWorkerRun : List QEntry → WorkerResult × List Bytes
  | [] => (WorkerResult.blocked, [])
  | QEntry.sentinel :: _ => (WorkerResult.graceful, [])
  | QEntry.item data ev :: rest =>
      match (workerWriteFlush ev).1 with
      | Except.ok _ =>
          let r := sendWorkerRun rest
          (r.1, data :: r.2)
      | Except.error _ => (WorkerResult.sendError, [])

/-! ### Close (TCP.close, lines 91-102) -/

/-- Outcome the send task completes with, observed when close awaits it:
returned normally (sentinel reached) or raised OSError from a failed
write-flush. -/
inductive TaskOutcome where
  | graceful
  | failedOSError
deriving DecidableEq, Repr

/-- What writer.close() plus wait_closed() would do during the close
handshake: finish after d time units, or raise. -/
inductive WriterEvent where
  | waitClosedTakes (d : Nat)
  | raisesExc
deriving DecidableEq, Repr

/-- asyncio.wait_for(self.writer.wait_closed(), TCP.TIMEOUT) together
with writer.close(): the handshake's outcome within the bound, the
scheduler's timeout signal at the bound otherwise. -/
def closeHandshakeStep : WriterEvent → Except PyExc Unit × Nat
  | WriterEvent.waitClosedTakes d =>
      if d ≤ TIMEOUT then (Except.ok (), d)
      else (Except.error PyExc.asyncioTimeout, TIMEOUT)
  | WriterEvent.raisesExc => (Except.error PyExc.osError, 0)

/-- Transport state as close sees it: the send task if one was started
(with the outcome awaiting it yields), and the writer if one exists (with
what its close handshake would do). -/
structure CloseState where
  sendTask : Option TaskOutcome
  writer : Option WriterEvent
deriving DecidableEq, Repr

/-- What a call to TCP.close produces for its caller. -/
inductive CloseResult where
  | ok
  | raisedOSError
deriving DecidableEq, Repr

/-- TCP.close: put None on the unbounded queue (never fails), await the
send task if there is one — awaiting a task that raised re-raises its
exception here, outside any try block — then, inside a try whose except
clause logs and swallows every Exception, close the writer and wait for
the bounded close handshake. -/
def close (st : CloseState) : CloseResult :=
  match st.sendTask with
  | some TaskOutcome.failedOSError => CloseResult.raisedOSError
  | _ =>
      match st.writer with
      | none => CloseResult.ok
      | some w =>
          match (closeHandshakeStep w).1 with
          | Except.ok _ => CloseResult.ok
          | Except.error _ => CloseResult.ok

/-! ### delete_forum_topic (src/pyrogram/methods/chats/delete_forum_topic.py) -/

/-- Client.delete_forum_topic: inside a try, resolve the peer for chat_id
and invoke channels.DeleteTopicHistory on it with top_msg_id = topic_id;
any Exception raised by either step is printed and turns into False,
success returns True.  The two fallible collaborators are passed as
environment functions returning Except. -/
def delete_forum_topic (chat_id : Int) (topic_id : Int)
    (resolve_peer : Int → Except PyExc Nat)
    (invoke : Nat → Int → Except PyExc Unit) : Bool :=
  match resolve_peer chat_id with
  | Except.error _ => false
  | Except.ok peer =>
      match invoke peer topic_id with
      | Except.error _ => false
      | Except.ok _ => true

/-! ### Helper lemmas -/

/-- A run of successfully flushed items prepends its payloads, in order,
to whatever the worker does with the rest of the queue. -/
theorem sendWorkerRun_ok_front (ps : List (Bytes × Nat)) (tail : List QEntry) :
    sendWorkerRun (ps.map (fun p => QEntry.item p.1 (FlushEvent.succeeds p.2)) ++ tail)
      = ((sendWorkerRun tail).1, ps.map Prod.fst ++ (sendWorkerRun tail).2) := by
  induction ps with
  | nil => simp
  | cons p ps ih =>
      obtain ⟨b, d⟩ := p
      simp [sendWorkerRun, workerWriteFlush, ih]

/-- Once enough bytes have accumulated, the recv loop stops at once,
whatever reads the socket would still answer. -/
theorem recvAux_done (length : Nat) (data : Bytes) (evs : List ReadEvent)
    (h : length ≤ data.length) : recvAux length data evs = some data := by
  cases evs with
  | nil => simp [recvAux, Nat.not_lt.mpr h]
  | cons ev rest => simp [recvAux, Nat.not_lt.mpr h]

/-- Whenever the recv loop returns bytes at all, it returns at least the
requested count. -/
theorem recvAux_some_le (length : Nat) :
    ∀ (evs : List ReadEvent) (data r : Bytes),
      recvAux length data evs = some r → length ≤ r.length := by
  intro evs
  induction evs with
  | nil =>
      intro data r h
      by_cases hlt : data.length < length
      · simp [recvAux, hlt] at h
      · rw [recvAux, if_neg hlt] at h
        injection h with h
        subst h
        omega
  | cons ev rest ih =>
      intro data r h
      by_cases hlt : data.length < length
      · rw [recvAux, if_pos hlt] at h
        rcases hrc : (readChunkBounded ev).1 with e | chunk
        · rw [hrc] at h
          simp at h
        · rw [hrc] at h
          by_cases hc : chunk = []
          · simp [hc] at h
          · simp only [hc, if_false, if_neg hc] at h
            exact ih _ _ h
      · rw [recvAux, if_neg hlt] at h
        cases h
        omega

/-- A chunk sequence that fits the remaining request never supplies more
than that many bytes in total. -/
theorem fitsB_flatten_le :
    ∀ (cs : List Bytes) (n : Nat), fitsB n cs = true → (cs.flatten).length ≤ n := by
  intro cs
  induction cs with
  | nil => intro n _; simp
  | cons c cs ih =>
      intro n hf
      rw [fitsB, Bool.and_eq_true, decide_eq_true_iff] at hf
      have := ih (n - c.length) hf.2
      simp only [List.flatten_cons, List.length_append]
      omega

/-- The recv loop consumes a fitting sequence of timely, non-empty
chunks entirely, appending every chunk in order. -/
theorem recvAux_success (length : Nat) :
    ∀ (ps : List (Nat × Bytes)) (data : Bytes) (rest : List ReadEvent),
      (∀ p ∈ ps, p.1 ≤ TIMEOUT ∧ p.2 ≠ []) →
      fitsB (length - data.length) (ps.map Prod.snd) = true →
      length ≤ data.length + ((ps.map Prod.snd).flatten).length →
      recvAux length data (ps.map (fun p => ReadEvent.delivers p.1 p.2) ++ rest)
        = some (data ++ (ps.map Prod.snd).flatten) := by
  intro ps
  induction ps with
  | nil =>
      intro data rest _ _ htot
      simp only [List.map_nil, List.flatten_nil, List.nil_append, List.append_nil]
      exact recvAux_done length data rest (by simpa using htot)
  | cons p ps ih =>
      intro data rest hps hfit htot
      obtain ⟨d, c⟩ := p
      have hd : d ≤ TIMEOUT ∧ c ≠ [] := hps (d, c) (List.mem_cons_self _ _)
      rw [List.map_cons, fitsB, Bool.and_eq_true, decide_eq_true_iff] at hfit
      have hcpos : 0 < c.length := List.length_pos.mpr hd.2
      have hcle : c.length ≤ length - data.length := hfit.1
      have hlt : data.length < length := by omega
      rw [List.map_cons, List.cons_append, recvAux, if_pos hlt]
      have hrc : (readChunkBounded (ReadEvent.delivers d c)).1 = Except.ok c := by
        simp [readChunkBounded, hd.1]
      rw [hrc]
      have hfit' : fitsB (length - (data ++ c).length) (ps.map Prod.snd) = true := by
        have := hfit.2
        simpa [List.length_append, Nat.sub_sub] using this
      have htot' : length ≤ (data ++ c).length + ((ps.map Prod.snd).flatten).length := by
        simp only [List.map_cons, List.flatten_cons, List.length_append] at htot ⊢
        omega
      have hrec := ih (data ++ c) rest (fun q hq => hps q (List.mem_cons_of_mem _ hq)) hfit' htot'
      simp only [hd.2, if_false, if_neg hd.2, hrec, List.map_cons, List.flatten_cons,
        List.append_assoc]

/-- A failing chunk read — too slow, an I/O error, or an empty chunk —
reached before enough bytes have accumulated makes the recv loop return
the failure sentinel. -/
theorem recvAux_failure (length : Nat) :
    ∀ (ps : List (Nat × Bytes)) (data : Bytes) (bad : ReadEvent) (rest : List ReadEvent),
      (∀ p ∈ ps, p.1 ≤ TIMEOUT) →
      (match bad with
       | ReadEvent.delivers d c => TIMEOUT < d ∨ c = []
       | ReadEvent.raises _ => True) →
      data.length + ((ps.map Prod.snd).flatten).length < length →
      recvAux length data (ps.map (fun p => ReadEvent.delivers p.1 p.2) ++ bad :: rest)
        = none := by
  intro ps
  induction ps with
  | nil =>
      intro data bad rest _ hbad htot
      have hlt : data.length < length := by simpa using htot
      rw [List.map_nil, List.nil_append, recvAux, if_pos hlt]
      cases bad with
      | delivers d c =>
          rcases hbad with hslow | hempty
          · have hrc : (readChunkBounded (ReadEvent.delivers d c)).1
                = Except.error PyExc.asyncioTimeout := by
              simp [readChunkBounded, Nat.not_le.mpr hslow]
            rw [hrc]
          · by_cases hdT : d ≤ TIMEOUT
            · have hrc : (readChunkBounded (ReadEvent.delivers d c)).1 = Except.ok c := by
                simp [readChunkBounded, hdT]
              rw [hrc]
              simp [hempty]
            · have hrc : (readChunkBounded (ReadEvent.delivers d c)).1
                  = Except.error PyExc.asyncioTimeout := by
                simp [readChunkBounded, hdT]
              rw [hrc]
      | raises d =>
          by_cases hdT : d ≤ TIMEOUT
          · have hrc : (readChunkBounded (ReadEvent.raises d)).1
                = Except.error PyExc.osError := by simp [readChunkBounded, hdT]
            rw [hrc]
          · have hrc : (readChunkBounded (ReadEvent.raises d)).1
                = Except.error PyExc.asyncioTimeout := by simp [readChunkBounded, hdT]
            rw [hrc]
  | cons p ps ih =>
      intro data bad rest hps hbad htot
      obtain ⟨d, c⟩ := p
      have hd : d ≤ TIMEOUT := hps (d, c) (List.mem_cons_self _ _)
      simp only [List.map_cons, List.flatten_cons, List.length_append] at htot
      have hlt : data.length < length := by omega
      rw [List.map_cons, List.cons_append, recvAux, if_pos hlt]
      have hrc : (readChunkBounded (ReadEvent.delivers d c)).1 = Except.ok c := by
        simp [readChunkBounded, hd]
      rw [hrc]
      by_cases hc : c = []
      · simp [hc]
      · have hrec := ih (data ++ c) bad rest (fun q hq => hps q (List.mem_cons_of_mem _ hq))
          hbad (by simp only [List.length_append]; omega)
        simp only [hc, if_false, if_neg hc, hrec]

/-! ### Claim theorems -/

/-- Claim C1: recv is all-or-nothing.  For every length > 0, if the chunk
reads supply at least `length` bytes — each chunk timely, non-empty, and
no larger than what is still requested — before any timeout, error or
empty chunk, then recv(length) returns exactly the first `length` bytes
of the stream in order; and recv never returns a result shorter than
`length`. -/
theorem recv_exact_or_failure (length : Nat) (hlen : 0 < length)
    (ps : List (Nat × Bytes)) (rest : List ReadEvent)
    (hps : ∀ p ∈ ps, p.1 ≤ TIMEOUT ∧ p.2 ≠ [])
    (hfit : fitsB length (ps.map Prod.snd) = true)
    (htot : length ≤ ((ps.map Prod.snd).flatten).length) :
    recv length (ps.map (fun p => ReadEvent.delivers p.1 p.2) ++ rest)
      = some (((ps.map Prod.snd).flatten).take length) ∧
    ∀ (evs : List ReadEvent) (r : Bytes), recv length evs = some r → length ≤ r.length := by
  constructor
  · have hflen : ((ps.map Prod.snd).flatten).length = length :=
      Nat.le_antisymm (fitsB_flatten_le _ _ hfit) htot
    have h := recvAux_success length ps [] rest hps (by simpa using hfit) (by simpa using htot)
    rw [recv, h]
    rw [← hflen, List.take_length]
    simp
  · intro evs r h
    exact recvAux_some_le length evs [] r h

/-- Witness for C1 at length 2 with two one-byte chunks. -/
theorem recv_exact_or_failure_witness :
    recv 2 [ReadEvent.delivers 1 [7], ReadEvent.delivers 2 [8]] = some [7, 8] ∧
    ∀ (evs : List ReadEvent) (r : Bytes), recv 2 evs = some r → 2 ≤ r.length := by
  have h := recv_exact_or_failure 2 (by decide) [(1, [7]), (2, [8])] []
    (by decide) (by decide) (by decide)
  simpa using h

/-- Claim C2 counterexample: with the send worker already terminated by a
Send error, close() re-raises that error to its caller — awaiting the
failed task happens outside the try block — so close() is not
error-free in every state. -/
theorem close_raises_after_send_error_cex :
    close ⟨some TaskOutcome.failedOSError, none⟩ = CloseResult.raisedOSError ∧
    CloseResult.raisedOSError ≠ CloseResult.ok :=
  ⟨rfl, by decide⟩

/-- Claim C2 as amended: close() completes normally in every state in
which the send worker has not terminated with a Send error — close
handshake failures of any kind are logged and swallowed, and a second
close after a graceful worker stop also completes normally — but a
worker that terminated with a Send error is re-raised by close(). -/
theorem close_no_raise_unless_worker_failed (st : CloseState)
    (h : st.sendTask ≠ some TaskOutcome.failedOSError) : close st = CloseResult.ok := by
  obtain ⟨t, w⟩ := st
  cases t with
  | none =>
      cases w with
      | none => rfl
      | some we =>
          rcases hcs : (closeHandshakeStep we).1 with e | u
          · simp [close, hcs]
          · simp [close, hcs]
  | some o =>
      cases o with
      | graceful =>
          cases w with
          | none => rfl
          | some we =>
              rcases hcs : (closeHandshakeStep we).1 with e | u
              · simp [close, hcs]
              · simp [close, hcs]
      | failedOSError => exact absurd rfl h

/-- Witness for the amended C2: a gracefully stopped worker and a close
handshake that would outlast the timeout still yield a normal return. -/
theorem close_no_raise_unless_worker_failed_witness :
    close ⟨some TaskOutcome.graceful, some (WriterEvent.waitClosedTakes 99)⟩
      = CloseResult.ok :=
  close_no_raise_unless_worker_failed
    ⟨some TaskOutcome.graceful, some (WriterEvent.waitClosedTakes 99)⟩ (by decide)

/-- Claim C3 counterexample: the send worker's flush is not bounded by
TIMEOUT — a drain taking 11 > 10 time units completes normally after the
full 11 units instead of being converted into a typed failure, because
the source awaits writer.drain() with no asyncio.wait_for around it. -/
theorem flush_unbounded_cex :
    TIMEOUT < 11 ∧ workerWriteFlush (FlushEvent.succeeds 11) = (Except.ok (), 11) :=
  ⟨by decide, rfl⟩

/-- Claim C3 as amended: the non-proxy connect, each chunk read inside
recv, and the close handshake are each bounded by TIMEOUT = 10 and
convert an exceeded bound into the corresponding failure, but the flush
performed by the send worker is unbounded: it waits the drain's full
duration, whatever it is, and reports success. -/
theorem timeout_bounds_amended (d : Nat) (c : Bytes) (hd : TIMEOUT < d) :
    connectNonProxy (ConnectEvent.succeeds d) = (Except.error PyExc.timeoutError, TIMEOUT) ∧
    readChunkBounded (ReadEvent.delivers d c) = (Except.error PyExc.asyncioTimeout, TIMEOUT) ∧
    readChunkBounded (ReadEvent.raises d) = (Except.error PyExc.asyncioTimeout, TIMEOUT) ∧
    closeHandshakeStep (WriterEvent.waitClosedTakes d)
      = (Except.error PyExc.asyncioTimeout, TIMEOUT) ∧
    workerWriteFlush (FlushEvent.succeeds d) = (Except.ok (), d) := by
  have hn : ¬ d ≤ TIMEOUT := Nat.not_le.mpr hd
  refine ⟨?_, ?_, ?_, ?_, rfl⟩
  · simp [connectNonProxy, sockConnectBounded, hn]
  · simp [readChunkBounded, hn]
  · simp [readChunkBounded, hn]
  · simp [closeHandshakeStep, hn]

/-- Witness for the amended C3 at duration 11 and chunk [7]. -/
theorem timeout_bounds_amended_witness :
    connectNonProxy (ConnectEvent.succeeds 11) = (Except.error PyExc.timeoutError, TIMEOUT) ∧
    readChunkBounded (ReadEvent.delivers 11 [7]) = (Except.error PyExc.asyncioTimeout, TIMEOUT) ∧
    readChunkBounded (ReadEvent.raises 11) = (Except.error PyExc.asyncioTimeout, TIMEOUT) ∧
    closeHandshakeStep (WriterEvent.waitClosedTakes 11)
      = (Except.error PyExc.asyncioTimeout, TIMEOUT) ∧
    workerWriteFlush (FlushEvent.succeeds 11) = (Except.ok (), 11) :=
  timeout_bounds_amended 11 [7] (by decide)

/-- Claim C4: recv(length) returns the single Failure sentinel (none) in
every failure case — a chunk read that is too slow, raises an I/O error,
or returns zero bytes before `length` bytes have accumulated makes the
whole call yield none, the same value in all three sub-cases. -/
theorem recv_failure_sentinel (length : Nat) (ps : List (Nat × Bytes))
    (bad : ReadEvent) (rest : List ReadEvent)
    (hps : ∀ p ∈ ps, p.1 ≤ TIMEOUT)
    (hbad : match bad with
            | ReadEvent.delivers d c => TIMEOUT < d ∨ c = []
            | ReadEvent.raises _ => True)
    (htot : ((ps.map Prod.snd).flatten).length < length) :
    recv length (ps.map (fun p => ReadEvent.delivers p.1 p.2) ++ bad :: rest) = none :=
  recvAux_failure length ps [] bad rest hps hbad (by simpa using htot)

/-- Witness for C4: one good byte then an I/O error while 3 bytes were
requested yields none. -/
theorem recv_failure_sentinel_witness :
    recv 3 [ReadEvent.delivers 1 [7], ReadEvent.raises 2] = none := by
  have h := recv_failure_sentinel 3 [(1, [7])] (ReadEvent.raises 2) []
    (by decide) (by trivial) (by decide)
  simpa using h

/-- Claim C5: the send worker dequeues one entry at a time; the sentinel
terminates the loop gracefully with no error and nothing further is
written, while a write/flush failure on a normal entry terminates the
worker with a Send error after the earlier entries were written. -/
theorem send_worker_sentinel_and_error (rest : List QEntry) (ps : List (Bytes × Nat))
    (data : Bytes) (fd : Nat) (rest2 : List QEntry) :
    sendWorkerRun (QEntry.sentinel :: rest) = (WorkerResult.graceful, []) ∧
    sendWorkerRun (ps.map (fun p => QEntry.item p.1 (FlushEvent.succeeds p.2))
        ++ QEntry.item data (FlushEvent.fails fd) :: rest2)
      = (WorkerResult.sendError, ps.map Prod.fst) := by
  refine ⟨rfl, ?_⟩
  rw [sendWorkerRun_ok_front]
  simp [sendWorkerRun, workerWriteFlush]

/-- Claim C6: on the non-proxy path a connect attempt that exceeds the
fixed timeout yields the normalized TimeoutError; the scheduler's generic
timeout signal never reaches the caller as-is; and a non-timeout connect
failure surfaces as the OSError (ConnectionFailed) class. -/
theorem connect_timeout_normalized (ev : ConnectEvent) (d e : Nat)
    (hd : TIMEOUT < d) (he : e ≤ TIMEOUT) :
    (connectNonProxy ev).1 ≠ Except.error PyExc.asyncioTimeout ∧
    connectNonProxy (ConnectEvent.succeeds d) = (Except.error PyExc.timeoutError, TIMEOUT) ∧
    connectNonProxy (ConnectEvent.fails d) = (Except.error PyExc.timeoutError, TIMEOUT) ∧
    connectNonProxy (ConnectEvent.fails e) = (Except.error PyExc.osError, e) := by
  have hn : ¬ d ≤ TIMEOUT := Nat.not_le.mpr hd
  refine ⟨?_, ?_, ?_, ?_⟩
  · cases ev with
    | succeeds a =>
        by_cases ha : a ≤ TIMEOUT
        · simp [connectNonProxy, sockConnectBounded, ha]
        · simp [connectNonProxy, sockConnectBounded, ha]
    | fails a =>
        by_cases ha : a ≤ TIMEOUT
        · simp [connectNonProxy, sockConnectBounded, ha]
        · simp [connectNonProxy, sockConnectBounded, ha]
  · simp [connectNonProxy, sockConnectBounded, hn]
  · simp [connectNonProxy, sockConnectBounded, hn]
  · simp [connectNonProxy, sockConnectBounded, he]

/-- Witness for C6 at durations 11 (late) and 4 (timely failure). -/
theorem connect_timeout_normalized_witness :
    (connectNonProxy (ConnectEvent.succeeds 11)).1 ≠ Except.error PyExc.asyncioTimeout ∧
    connectNonProxy (ConnectEvent.succeeds 11) = (Except.error PyExc.timeoutError, TIMEOUT) ∧
    connectNonProxy (ConnectEvent.fails 11) = (Except.error PyExc.timeoutError, TIMEOUT) ∧
    connectNonProxy (ConnectEvent.fails 4) = (Except.error PyExc.osError, 4) :=
  connect_timeout_normalized (ConnectEvent.succeeds 11) 11 4 (by decide) (by decide)

/-- Claim C7: with a proxy, a hostname parsing as an IPv6 literal selects
AF_INET6 and every other parse outcome selects AF_INET; without a proxy
the ipv6 flag alone selects the family. -/
theorem proxy_family_selection (ipv6 : Bool) (h6name hother : String)
    (pa pb : String → ParseResult)
    (hpa : pa h6name = ParseResult.v6) (hpb : pb hother ≠ ParseResult.v6) :
    chooseSocketFamily ipv6 (some h6name) pa = AddrFamily.afInet6 ∧
    chooseSocketFamily ipv6 (some hother) pb = AddrFamily.afInet ∧
    chooseSocketFamily ipv6 none pa
      = (if ipv6 then AddrFamily.afInet6 else AddrFamily.afInet) := by
  refine ⟨?_, ?_, rfl⟩
  · simp [chooseSocketFamily, hpa]
  · cases hr : pb hother with
    | v4 => simp [chooseSocketFamily, hr]
    | v6 => exact absurd hr hpb
    | invalid => simp [chooseSocketFamily, hr]

/-- Witness for C7 with constant parse outcomes on the empty hostname. -/
theorem proxy_family_selection_witness :
    chooseSocketFamily false (some (String.mk [])) (fun _ => ParseResult.v6)
      = AddrFamily.afInet6 ∧
    chooseSocketFamily false (some (String.mk [])) (fun _ => ParseResult.v4)
      = AddrFamily.afInet ∧
    chooseSocketFamily false none (fun _ => ParseResult.v6)
      = (if false then AddrFamily.afInet6 else AddrFamily.afInet) :=
  proxy_family_selection false (String.mk []) (String.mk [])
    (fun _ => ParseResult.v6) (fun _ => ParseResult.v4) rfl (by decide)

/-- Claim C8: send ordering is FIFO with no interleaving — the worker
writes every successfully flushed payload in exact submission order, so
any send(a) enqueued before send(b) reaches the wire strictly before it,
and no non-sentinel entry is reordered or dropped. -/
theorem send_fifo_order (ps : List (Bytes × Nat)) (rest : List QEntry) :
    sendWorkerRun (ps.map (fun p => QEntry.item p.1 (FlushEvent.succeeds p.2))
        ++ QEntry.sentinel :: rest)
      = (WorkerResult.graceful, ps.map Prod.fst) := by
  rw [sendWorkerRun_ok_front]
  simp [sendWorkerRun]

/-- Claim C9: recv(0) always returns the empty byte string immediately
and issues no read on the socket, whatever the socket would answer. -/
theorem recv_zero_immediate (evs : List ReadEvent) :
    recv 0 evs = some [] ∧ recvReads 0 evs = 0 := by
  refine ⟨?_, ?_⟩
  · cases evs with
    | nil => rfl
    | cons ev rest => rfl
  · cases evs with
    | nil => rfl
    | cons ev rest => rfl

/-- Claim C10: delete_forum_topic never propagates an exception — it is a
total Boolean function of its collaborators' outcomes, returning true
exactly when resolve_peer and invoke both succeed and false (after
printing the exception) whenever either raises. -/
theorem delete_forum_topic_no_raise (chat topic : Int)
    (rp : Int → Except PyExc Nat) (inv : Nat → Int → Except PyExc Unit) :
    (delete_forum_topic chat topic rp inv = true
      ↔ ∃ p, rp chat = Except.ok p ∧ inv p topic = Except.ok ()) ∧
    (delete_forum_topic chat topic rp inv = false
      ↔ ∀ p, rp chat = Except.ok p → inv p topic ≠ Except.ok ()) := by
  rcases hr : rp chat with e | p
  · constructor
    · simp [delete_forum_topic, hr]
    · simp [delete_forum_topic, hr]
  · rcases hi : inv p topic with e2 | u
    · constructor
      · simp [delete_forum_topic, hr, hi]
      · simp [delete_forum_topic, hr, hi]
    · cases u
      constructor
      · simp [delete_forum_topic, hr, hi]
      · simp [delete_forum_topic, hr, hi]

/-- Witness for C10: both collaborators succeeding yields true. -/
theorem delete_forum_topic_no_raise_witness :
    delete_forum_topic 0 0 (fun _ => Except.ok 0) (fun _ _ => Except.ok ()) = true :=
  (delete_forum_topic_no_raise 0 0 (fun _ => Except.ok 0) (fun _ _ => Except.ok ())).1.mpr
    ⟨0, rfl, rfl⟩
